import Mathlib

/-
Shallow embedding of src/supabase/functions/zerodha-ltp-py/index.py.

The handler is a single synchronous function over an HTTP request. Its
external collaborators (environment variables, the database client
constructor, the auth service, the credential store, the broker quote
API) are modelled as an oracle record (World) of pure functions that
may fail (Except String). The handler is transcribed line by line from
the source; alongside the response it records the ordered list of
outbound calls it performs (Call), so that claims about which
collaborators are or are not invoked can be stated.
-/

/-- Python string.strip() whitespace set (ASCII part): space, tab,
newline, carriage return, vertical tab, form feed. -/
def isPySpace (c : Char) : Bool :=
  c = ' ' || c = '\t' || c = '\n' || c = '\r' || c = '\x0b' || c = '\x0c'

/-- Python str.strip(): remove leading and trailing whitespace. -/
def pyStrip (s : String) : String :=
  ⟨((s.data.dropWhile isPySpace).reverse.dropWhile isPySpace).reverse⟩

/-- Python str.split on a single comma separator: splits at every comma,
keeping empty pieces; the empty string yields one empty piece. -/
def pySplitCommaChars : List Char → List (List Char)
  | [] => [[]]
  | c :: cs =>
    if c = ',' then [] :: pySplitCommaChars cs
    else
      match pySplitCommaChars cs with
      | [] => [[c]]
      | p :: ps => (c :: p) :: ps

/-- Python instruments_str.split(",") lifted to String. -/
def pySplitComma (s : String) : List String :=
  (pySplitCommaChars s.data).map fun cs => ⟨cs⟩

/-- The character list of the literal "Bearer " used by the handler. -/
def bearerChars : List Char := ['B', 'e', 'a', 'r', 'e', 'r', ' ']

/-- If pat is a prefix of s, return the remainder of s, else none. -/
def dropPat : List Char → List Char → Option (List Char)
  | [], s => some s
  | _ :: _, [] => none
  | p :: ps, c :: cs => if p = c then dropPat ps cs else none

/-- Whether pat occurs as a substring (at any position). -/
def hasPat (pat : List Char) : List Char → Bool
  | [] => (dropPat pat []).isSome
  | c :: cs => (dropPat pat (c :: cs)).isSome || hasPat pat cs

/-- Python s.replace(pat, ""): scan left to right, deleting each
non-overlapping occurrence of pat. Fuel-indexed so that the recursion
is structural; fuel = length of the input suffices for a non-empty pat. -/
def replaceDelFuel (pat : List Char) : Nat → List Char → List Char
  | _, [] => []
  | 0, s => s
  | n + 1, c :: cs =>
    match dropPat pat (c :: cs) with
    | some rest => replaceDelFuel pat n rest
    | none => c :: replaceDelFuel pat n cs

/-- Python auth_header.replace("Bearer ", ""): delete every occurrence
of the literal "Bearer " from the header value. -/
def stripBearer (s : String) : String :=
  ⟨replaceDelFuel bearerChars s.data.length s.data⟩

/-- Whether the string starts with the literal "Bearer ". -/
def startsWithBearer (s : String) : Bool :=
  (dropPat bearerChars s.data).isSome

/-- Whether the literal "Bearer " occurs anywhere in the string. -/
def containsBearer (s : String) : Bool :=
  hasPat bearerChars s.data

/-- JSON values, used for the broker API result passed through verbatim. -/
inductive Json where
  | null : Json
  | bool (b : Bool) : Json
  | num (n : Int) : Json
  | str (s : String) : Json
  | arr (xs : List Json) : Json
  | obj (fields : List (String × Json)) : Json

/-- The opaque database client value returned by create_client. -/
structure Client where
  tag : Nat
deriving DecidableEq

/-- The authenticated user resolved from the bearer token; only its id
is used (to scope the credential lookup). -/
structure AuthUser where
  id : String
deriving DecidableEq

/-- A stored broker credential row: the columns selected by the handler
(api_key, access_token). -/
structure BrokerCredential where
  api_key : String
  access_token : String
deriving DecidableEq

/-- The oracle of external collaborators: environment variables, the
database client constructor, the auth service, the credential store
lookup (by broker id and user id), and the broker LTP batch call
(by api key, access token, instrument list). Each call either returns
a value or raises an exception carrying a message. -/
structure World where
  environ : String → Option String
  create_client : Option String → Option String → Except String Client
  get_user : Client → String → Except String (Option AuthUser)
  broker_lookup : Client → String → String → Except String (Option BrokerCredential)
  ltp : String → String → List String → Except String Json

/-- One outbound call performed by the handler, with its arguments. -/
inductive Call where
  | create_client (url key : Option String) : Call
  | get_user (token : String) : Call
  | broker_lookup (broker_id user_id : String) : Call
  | ltp (api_key access_token : String) (instruments : List String) : Call

/-- The incoming HTTP request: method, headers and query parameters
(both as partial maps, none meaning the key is absent). -/
structure Request where
  method : String
  headers : String → Option String
  params : String → Option String

/-- Response body: empty (OPTIONS), or the JSON success object with a
data field, or the JSON failure object with an error message field. -/
inductive Body where
  | empty : Body
  | success (data : Json) : Body
  | failure (error : String) : Body

/-- The Response class of the source: body, status, headers. -/
structure Response where
  body : Body
  status : Nat
  headers : List (String × String)

/-- The cors_headers dictionary of the source. -/
def cors_headers : List (String × String) :=
  [("Access-Control-Allow-Origin", "*"),
   ("Access-Control-Allow-Methods", "GET, POST, OPTIONS"),
   ("Access-Control-Allow-Headers", "Content-Type, Authorization, X-Client-Info, Apikey")]

/-- Headers of every non-OPTIONS response: cors_headers plus the JSON
content type, in source order. -/
def jsonHeaders : List (String × String) :=
  cors_headers ++ [("Content-Type", "application/json")]

/-- os.environ.get("SUPABASE_URL"). -/
def envUrl (w : World) : Option String := w.environ "SUPABASE_URL"

/-- os.environ.get("SUPABASE_SERVICE_ROLE_KEY"). -/
def envKey (w : World) : Option String := w.environ "SUPABASE_SERVICE_ROLE_KEY"

/-- req.headers.get("Authorization", "") of the source. -/
def authHeaderOf (req : Request) : String :=
  (req.headers "Authorization").getD ""

/-- The token the handler passes to the auth service:
auth_header.replace("Bearer ", ""). -/
def tokenOf (req : Request) : String :=
  stripBearer (authHeaderOf req)

/-- Line 70 of the source: the instrument list passed to kite.ltp,
i.strip() for i in instruments_str.split(","). -/
def parseInstruments (instruments_str : String) : List String :=
  (pySplitComma instruments_str).map pyStrip

/-- The try-block body of the handler (lines 21 to 85): every step in
source order, together with the ordered trace of outbound calls made.
An Except.error is a raised exception carrying its message. -/
def runBody (w : World) (req : Request) : Except String Json × List Call :=
  let url := envUrl w
  let key := envKey w
  match w.create_client url key with
  | .error e => (.error e, [Call.create_client url key])
  | .ok supabase =>
    let auth_header := authHeaderOf req
    if auth_header = "" then
      (.error "No authorization header", [Call.create_client url key])
    else
      let token := stripBearer auth_header
      match w.get_user supabase token with
      | .error e => (.error e, [Call.create_client url key, Call.get_user token])
      | .ok userOpt =>
        let calls := [Call.create_client url key, Call.get_user token]
        match userOpt with
        | none => (.error "Unauthorized", calls)
        | some user =>
          let broker_id := req.params "broker_id"
          let instruments_str := (req.params "instruments").getD ""
          if broker_id.getD "" = "" then
            (.error "Missing broker_id parameter", calls)
          else if instruments_str = "" then
            (.error "Missing instruments parameter", calls)
          else
            let bid := broker_id.getD ""
            match w.broker_lookup supabase bid user.id with
            | .error e => (.error e, calls ++ [Call.broker_lookup bid user.id])
            | .ok credOpt =>
              let calls2 := calls ++ [Call.broker_lookup bid user.id]
              match credOpt with
              | none =>
                (.error "Broker not connected or access token missing", calls2)
              | some cred =>
                if cred.access_token = "" then
                  (.error "Broker not connected or access token missing", calls2)
                else
                  let instruments_list := parseInstruments instruments_str
                  match w.ltp cred.api_key cred.access_token instruments_list with
                  | .error e =>
                    (.error e, calls2 ++ [Call.ltp cred.api_key cred.access_token instruments_list])
                  | .ok data =>
                    (.ok data, calls2 ++ [Call.ltp cred.api_key cred.access_token instruments_list])

/-- The full handler with its call trace: the OPTIONS early return
(lines 14 to 19), then the try-block wrapped by the catch-all
exception boundary (lines 87 to 98). -/
def handlerT (w : World) (req : Request) : Response × List Call :=
  if req.method = "OPTIONS" then
    ({ body := Body.empty, status := 200, headers := cors_headers }, [])
  else
    match runBody w req with
    | (.ok data, calls) =>
      ({ body := Body.success data, status := 200, headers := jsonHeaders }, calls)
    | (.error e, calls) =>
      ({ body := Body.failure e, status := 400, headers := jsonHeaders }, calls)

/-- The handler function of the source: the response it returns. -/
def handler (w : World) (req : Request) : Response :=
  (handlerT w req).1

/-- The ordered trace of outbound calls the handler performs. -/
def handlerCalls (w : World) (req : Request) : List Call :=
  (handlerT w req).2

/-- The tokens carried by the auth-service calls of a trace. -/
def userTokens (calls : List Call) : List String :=
  calls.filterMap fun c =>
    match c with
    | Call.get_user t => some t
    | _ => none

/-- The instrument lists carried by the broker API calls of a trace. -/
def ltpInstrumentLists (calls : List Call) : List (List String) :=
  calls.filterMap fun c =>
    match c with
    | Call.ltp _ _ xs => some xs
    | _ => none

/-- A world in which every collaborator succeeds: environment set, the
auth service resolves any token to user-1, the credential store holds a
connected credential, and the broker API echoes each requested
instrument with price 100. -/
def okWorld : World where
  environ := fun _ => some "cfg"
  create_client := fun _ _ => Except.ok ⟨0⟩
  get_user := fun _ _ => Except.ok (some ⟨"user-1"⟩)
  broker_lookup := fun _ _ _ => Except.ok (some ⟨"apikey", "acctok"⟩)
  ltp := fun _ _ xs => Except.ok (Json.obj (xs.map fun s => (s, Json.num 100)))

/-- A world whose environment is unset, so that the database client
constructor raises (as supabase create_client does on a missing URL). -/
def noEnvWorld : World where
  environ := fun _ => none
  create_client := fun _ _ => Except.error "supabase_url is required"
  get_user := fun _ _ => Except.ok (some ⟨"user-1"⟩)
  broker_lookup := fun _ _ _ => Except.ok (some ⟨"apikey", "acctok"⟩)
  ltp := fun _ _ xs => Except.ok (Json.obj (xs.map fun s => (s, Json.num 100)))

/-- Like okWorld, except the stored credential row has an EMPTY api_key
and a non-empty access_token. -/
def emptyApiKeyWorld : World where
  environ := fun _ => some "cfg"
  create_client := fun _ _ => Except.ok ⟨0⟩
  get_user := fun _ _ => Except.ok (some ⟨"user-1"⟩)
  broker_lookup := fun _ _ _ => Except.ok (some ⟨"", "acctok"⟩)
  ltp := fun _ _ xs => Except.ok (Json.obj (xs.map fun s => (s, Json.num 100)))

/-- Like okWorld, except the credential store has no row for any key. -/
def noCredWorld : World where
  environ := fun _ => some "cfg"
  create_client := fun _ _ => Except.ok ⟨0⟩
  get_user := fun _ _ => Except.ok (some ⟨"user-1"⟩)
  broker_lookup := fun _ _ _ => Except.ok none
  ltp := fun _ _ xs => Except.ok (Json.obj (xs.map fun s => (s, Json.num 100)))

/-- A well-formed GET request: bearer token, broker_id b1, two
instruments with a space after the comma. -/
def reqGood : Request where
  method := "GET"
  headers := fun n => if n = "Authorization" then some "Bearer tok" else none
  params := fun n =>
    if n = "broker_id" then some "b1"
    else if n = "instruments" then some "NSE:INFY, NSE:TCS"
    else none

/-- A CORS pre-flight request. -/
def reqOptions : Request where
  method := "OPTIONS"
  headers := fun _ => none
  params := fun _ => none

/-- A GET request with no Authorization header at all. -/
def reqNoAuth : Request where
  method := "GET"
  headers := fun _ => none
  params := fun n =>
    if n = "broker_id" then some "b1"
    else if n = "instruments" then some "NSE:INFY, NSE:TCS"
    else none

/-- A GET request whose Authorization header holds "Bearer " in a
non-prefix position: "xBearer y". -/
def reqOddAuth : Request where
  method := "GET"
  headers := fun n => if n = "Authorization" then some "xBearer y" else none
  params := fun n =>
    if n = "broker_id" then some "b1"
    else if n = "instruments" then some "NSE:INFY" else none

/-- An authenticated GET request missing the broker_id parameter. -/
def reqNoBroker : Request where
  method := "GET"
  headers := fun n => if n = "Authorization" then some "Bearer tok" else none
  params := fun n => if n = "instruments" then some "NSE:INFY" else none

/-- An authenticated GET request with broker_id but no instruments. -/
def reqNoInstruments : Request where
  method := "GET"
  headers := fun n => if n = "Authorization" then some "Bearer tok" else none
  params := fun n => if n = "broker_id" then some "b1" else none

/-- Dropping a pattern that is a literal prefix returns the tail. -/
theorem dropPat_append (p t : List Char) : dropPat p (p ++ t) = some t := by
  induction p with
  | nil => rfl
  | cons c cs ih => simp [dropPat, ih]

/-- On a list with no occurrence of the pattern, deletion with enough
fuel is the identity. -/
theorem replaceDel_noOcc {s : List Char} (h : hasPat bearerChars s = false) :
    ∀ fuel, s.length ≤ fuel → replaceDelFuel bearerChars fuel s = s := by
  induction s with
  | nil => intro fuel _; cases fuel <;> rfl
  | cons c cs ih =>
    intro fuel hf
    cases fuel with
    | zero => simp at hf
    | succ n =>
      simp only [hasPat, Bool.or_eq_false_iff] at h
      have hnone : dropPat bearerChars (c :: cs) = none :=
        Option.not_isSome_iff_eq_none.mp (by simp [h.1])
      simp only [replaceDelFuel, hnone]
      have : cs.length ≤ n := by simp at hf; omega
      rw [ih h.2 n this]

/-- One deletion step on a list that starts with the "Bearer " pattern
followed by a pattern-free tail yields exactly the tail. -/
theorem replaceDel_bearer_head (d : List Char) (h : hasPat bearerChars d = false)
    (fuel : Nat) (hf : d.length ≤ fuel) :
    replaceDelFuel bearerChars (fuel + 1) (bearerChars ++ d) = d := by
  have hshape : bearerChars ++ d = 'B' :: (['e', 'a', 'r', 'e', 'r', ' '] ++ d) := rfl
  have hd : dropPat bearerChars ('B' :: (['e', 'a', 'r', 'e', 'r', ' '] ++ d)) = some d := by
    rw [← hshape]; exact dropPat_append bearerChars d
  rw [hshape]
  simp only [replaceDelFuel, hd]
  exact replaceDel_noOcc h fuel hf

/-- Replace-all coincides with prefix stripping when the remainder of
the header holds no further occurrence of "Bearer ". -/
theorem stripBearer_of_bearer_free (t : String) (h : containsBearer t = false) :
    stripBearer ("Bearer " ++ t) = t := by
  cases t with
  | mk d =>
    have hdata : ("Bearer " ++ String.mk d).data = bearerChars ++ d := rfl
    unfold containsBearer at h
    unfold stripBearer
    rw [hdata]
    have hlen : (bearerChars ++ d).length = d.length + 6 + 1 := by
      simp [bearerChars]
    rw [hlen, replaceDel_bearer_head d h (d.length + 6) (by omega)]

/-- Trace lemma: once the database client is constructed and the header
check passes, every execution path performs exactly one auth-service
call, carrying the replace-all token. -/
theorem userTokens_runBody (w : World) (req : Request) (c : Client)
    (hc : w.create_client (envUrl w) (envKey w) = Except.ok c)
    (ha : authHeaderOf req ≠ "") :
    userTokens (runBody w req).2 = [stripBearer (authHeaderOf req)] := by
  unfold runBody
  simp only [hc, ha, if_neg, reduceIte]
  repeat' split
  all_goals simp [userTokens]

/-- Claim C5: for every request with method OPTIONS the handler returns
status 200 with an empty body and only the CORS headers, and performs
no downstream calls. -/
theorem c5_options_preflight (w : World) (req : Request)
    (hm : req.method = "OPTIONS") :
    handler w req = ⟨Body.empty, 200, cors_headers⟩ ∧
    handlerCalls w req = [] := by
  constructor <;> simp [handler, handlerCalls, handlerT, hm]

/-- Witness for C5: a concrete OPTIONS request against the all-ok world. -/
theorem c5_witness :
    handler okWorld reqOptions = ⟨Body.empty, 200, cors_headers⟩ ∧
    handlerCalls okWorld reqOptions = [] :=
  c5_options_preflight okWorld reqOptions rfl

/-- Claim C9: the handler constructs the database client from the
SUPABASE_URL and SUPABASE_SERVICE_ROLE_KEY environment variables before
any request validation, so a construction failure yields a 400 carrying
the construction message on every non-OPTIONS request, whatever the
Authorization header, and no other collaborator is called. -/
theorem c9_client_first (w : World) (req : Request) (m : String)
    (hm : req.method ≠ "OPTIONS")
    (hc : w.create_client (envUrl w) (envKey w) = Except.error m) :
    handler w req = ⟨Body.failure m, 400, jsonHeaders⟩ ∧
    handlerCalls w req = [Call.create_client (envUrl w) (envKey w)] := by
  constructor <;> simp [handler, handlerCalls, handlerT, runBody, hm, hc]

/-- Witness for C9 at a request whose Authorization header is absent:
the construction failure takes precedence over the missing header. -/
theorem c9_witness :
    handler noEnvWorld reqNoAuth =
      ⟨Body.failure "supabase_url is required", 400, jsonHeaders⟩ ∧
    handlerCalls noEnvWorld reqNoAuth = [Call.create_client none none] := by
  have h := c9_client_first noEnvWorld reqNoAuth "supabase_url is required" (by decide) rfl
  exact ⟨h.1, h.2⟩

/-- Claim C6 as amended: provided the database client construction
succeeds, every non-OPTIONS request whose Authorization header is
absent or empty gets status 400 with error No authorization header, and
neither the auth service nor the credential store nor the broker API is
called. -/
theorem c6_amended_thm (w : World) (req : Request) (c : Client)
    (hm : req.method ≠ "OPTIONS")
    (hc : w.create_client (envUrl w) (envKey w) = Except.ok c)
    (ha : authHeaderOf req = "") :
    handler w req = ⟨Body.failure "No authorization header", 400, jsonHeaders⟩ ∧
    handlerCalls w req = [Call.create_client (envUrl w) (envKey w)] := by
  constructor <;> simp [handler, handlerCalls, handlerT, runBody, hm, hc, ha]

/-- Witness for C6 as amended: missing header in the all-ok world. -/
theorem c6_witness :
    handler okWorld reqNoAuth =
      ⟨Body.failure "No authorization header", 400, jsonHeaders⟩ :=
  (c6_amended_thm okWorld reqNoAuth ⟨0⟩ (by decide) rfl rfl).1

/-- Counterexample to C6 as stated: when the environment is unset the
client constructor raises first, so a request without an Authorization
header is answered with the construction message, not with
No authorization header. -/
theorem c6_counterexample :
    reqNoAuth.headers "Authorization" = none ∧
    reqNoAuth.method = "GET" ∧
    handler noEnvWorld reqNoAuth =
      ⟨Body.failure "supabase_url is required", 400, jsonHeaders⟩ ∧
    "supabase_url is required" ≠ "No authorization header" :=
  ⟨rfl, rfl, rfl, by decide⟩

/-- Claim C4: on every non-OPTIONS request, a success of the try-block
body yields 200 with the data, any exception yields 400 with the
message stringified unmodified, and consequently the status is always
exactly 200 or 400. -/
theorem c4_catch_all (w : World) (req : Request) (hm : req.method ≠ "OPTIONS") :
    (∀ d, (runBody w req).1 = Except.ok d →
      handler w req = ⟨Body.success d, 200, jsonHeaders⟩) ∧
    (∀ e, (runBody w req).1 = Except.error e →
      handler w req = ⟨Body.failure e, 400, jsonHeaders⟩) ∧
    ((handler w req).status = 200 ∨ (handler w req).status = 400) := by
  rcases hr : runBody w req with ⟨r, calls⟩
  cases r with
  | ok d0 =>
    refine ⟨?_, ?_, Or.inl ?_⟩
    · intro d hd; simp at hd; subst hd
      simp [handler, handlerT, hm, hr]
    · intro e he; simp at he
    · simp [handler, handlerT, hm, hr]
  | error e0 =>
    refine ⟨?_, ?_, Or.inr ?_⟩
    · intro d hd; simp at hd
    · intro e he; simp at he; subst he
      simp [handler, handlerT, hm, hr]
    · simp [handler, handlerT, hm, hr]

/-- Witness for C4 at a concrete non-OPTIONS request. -/
theorem c4_witness :
    (handler okWorld reqGood).status = 200 ∨ (handler okWorld reqGood).status = 400 :=
  (c4_catch_all okWorld reqGood (by decide)).2.2

/-- Claim C8: every response carries the three fixed CORS headers, and
every non-OPTIONS response additionally carries the JSON content type
and a non-empty JSON body. -/
theorem c8_cors (w : World) (req : Request) :
    (("Access-Control-Allow-Origin", "*") ∈ (handler w req).headers ∧
     ("Access-Control-Allow-Methods", "GET, POST, OPTIONS") ∈ (handler w req).headers ∧
     ("Access-Control-Allow-Headers", "Content-Type, Authorization, X-Client-Info, Apikey")
       ∈ (handler w req).headers) ∧
    (req.method ≠ "OPTIONS" →
      ("Content-Type", "application/json") ∈ (handler w req).headers ∧
      (handler w req).body ≠ Body.empty) := by
  by_cases hm : req.method = "OPTIONS"
  · constructor
    · simp [handler, handlerT, hm, cors_headers]
    · intro h; exact absurd hm h
  · rcases hr : runBody w req with ⟨r, calls⟩
    cases r <;> constructor <;>
      simp [handler, handlerT, hm, hr, jsonHeaders, cors_headers]

/-- Witness for C8 at an OPTIONS request and a non-OPTIONS request. -/
theorem c8_witness :
    ("Access-Control-Allow-Origin", "*") ∈ (handler okWorld reqOptions).headers ∧
    ("Content-Type", "application/json") ∈ (handler okWorld reqGood).headers ∧
    (handler okWorld reqGood).body ≠ Body.empty :=
  ⟨(c8_cors okWorld reqOptions).1.1,
   ((c8_cors okWorld reqGood).2 (by decide)).1,
   ((c8_cors okWorld reqGood).2 (by decide)).2⟩

/-- Claim C1: on a request that passes authentication, both parameter
checks and the credential lookup, the handler calls the broker API
exactly once with the instrument list obtained by splitting the
instruments parameter on commas and stripping whitespace from each
element (order, duplicates and empty entries preserved by the split
itself), and on broker success answers 200 with the success body
carrying the broker result unmodified; in particular the parameter
NSE:INFY, NSE:TCS produces exactly the two trimmed symbols. -/
theorem c1_batch_call (w : World) (req : Request) (c : Client) (u : AuthUser)
    (cred : BrokerCredential) (bid instr : String) (d : Json)
    (hm : req.method ≠ "OPTIONS")
    (hc : w.create_client (envUrl w) (envKey w) = Except.ok c)
    (ha : authHeaderOf req ≠ "")
    (hu : w.get_user c (tokenOf req) = Except.ok (some u))
    (hbid : req.params "broker_id" = some bid) (hbidne : bid ≠ "")
    (hinstr : req.params "instruments" = some instr) (hinstrne : instr ≠ "")
    (hcred : w.broker_lookup c bid u.id = Except.ok (some cred))
    (hat : cred.access_token ≠ "")
    (hltp : w.ltp cred.api_key cred.access_token (parseInstruments instr) = Except.ok d) :
    handler w req = ⟨Body.success d, 200, jsonHeaders⟩ ∧
    handlerCalls w req =
      [Call.create_client (envUrl w) (envKey w),
       Call.get_user (tokenOf req),
       Call.broker_lookup bid u.id,
       Call.ltp cred.api_key cred.access_token (parseInstruments instr)] ∧
    parseInstruments "NSE:INFY, NSE:TCS" = ["NSE:INFY", "NSE:TCS"] := by
  have hu2 : w.get_user c (stripBearer (authHeaderOf req)) = Except.ok (some u) := hu
  refine ⟨?_, ?_, by decide⟩ <;>
    simp [handler, handlerCalls, handlerT, runBody, hm, hc, ha, hu2,
      hbid, hbidne, hinstr, hinstrne, hcred, hat, hltp, tokenOf]

/-- Witness for C1: the full happy path on the all-ok world, with the
broker called on exactly the two trimmed instrument symbols. -/
theorem c1_witness :
    handler okWorld reqGood =
      ⟨Body.success (Json.obj [("NSE:INFY", Json.num 100), ("NSE:TCS", Json.num 100)]),
       200, jsonHeaders⟩ ∧
    handlerCalls okWorld reqGood =
      [Call.create_client (some "cfg") (some "cfg"),
       Call.get_user "tok",
       Call.broker_lookup "b1" "user-1",
       Call.ltp "apikey" "acctok" ["NSE:INFY", "NSE:TCS"]] := by
  have h := c1_batch_call okWorld reqGood ⟨0⟩ ⟨"user-1"⟩ ⟨"apikey", "acctok"⟩
    "b1" "NSE:INFY, NSE:TCS"
    (Json.obj [("NSE:INFY", Json.num 100), ("NSE:TCS", Json.num 100)])
    (by decide) rfl (by decide) rfl rfl (by decide) rfl (by decide) rfl (by decide) rfl
  exact ⟨h.1, h.2.1⟩

/-- Claim C2 as amended: at the credential lookup the handler fails
with 400 and error Broker not connected or access token missing when
the row is absent or its access_token is empty; the api_key field is
not part of the check. -/
theorem c2_amended_thm (w : World) (req : Request) (c : Client) (u : AuthUser)
    (hm : req.method ≠ "OPTIONS")
    (hc : w.create_client (envUrl w) (envKey w) = Except.ok c)
    (ha : authHeaderOf req ≠ "")
    (hu : w.get_user c (tokenOf req) = Except.ok (some u))
    (hb : (req.params "broker_id").getD "" ≠ "")
    (hi : (req.params "instruments").getD "" ≠ "") :
    (w.broker_lookup c ((req.params "broker_id").getD "") u.id = Except.ok none →
      handler w req =
        ⟨Body.failure "Broker not connected or access token missing", 400, jsonHeaders⟩) ∧
    (∀ cred, w.broker_lookup c ((req.params "broker_id").getD "") u.id = Except.ok (some cred) →
      cred.access_token = "" →
      handler w req =
        ⟨Body.failure "Broker not connected or access token missing", 400, jsonHeaders⟩) := by
  have hu2 : w.get_user c (stripBearer (authHeaderOf req)) = Except.ok (some u) := hu
  constructor
  · intro h
    simp [handler, handlerT, runBody, hm, hc, ha, hu2, hb, hi, h]
  · intro cred h hat
    simp [handler, handlerT, runBody, hm, hc, ha, hu2, hb, hi, h, hat]

/-- Witness for C2 as amended: the credential store has no row. -/
theorem c2_witness :
    handler noCredWorld reqGood =
      ⟨Body.failure "Broker not connected or access token missing", 400, jsonHeaders⟩ :=
  (c2_amended_thm noCredWorld reqGood ⟨0⟩ ⟨"user-1"⟩
    (by decide) rfl (by decide) rfl (by decide) (by decide)).1 rfl

/-- Counterexample to C2 as stated: a stored row whose api_key is empty
but whose access_token is non-empty is NOT rejected; the handler
proceeds to the broker call and answers 200. -/
theorem c2_counterexample :
    emptyApiKeyWorld.broker_lookup ⟨0⟩ "b1" "user-1" = Except.ok (some ⟨"", "acctok"⟩) ∧
    (handler emptyApiKeyWorld reqGood).status = 200 ∧
    (handler emptyApiKeyWorld reqGood).body =
      Body.success (Json.obj [("NSE:INFY", Json.num 100), ("NSE:TCS", Json.num 100)]) :=
  ⟨rfl, rfl, rfl⟩

/-- Claim C7: on an authenticated non-OPTIONS request, a missing or
empty broker_id parameter yields 400 with error Missing broker_id
parameter, a present non-empty broker_id with missing or empty
instruments yields 400 with error Missing instruments parameter, and in
both cases the trace shows no credential-store and no broker call, so
both checks precede the credential lookup. -/
theorem c7_param_checks (w : World) (req : Request) (c : Client) (u : AuthUser)
    (hm : req.method ≠ "OPTIONS")
    (hc : w.create_client (envUrl w) (envKey w) = Except.ok c)
    (ha : authHeaderOf req ≠ "")
    (hu : w.get_user c (tokenOf req) = Except.ok (some u)) :
    ((req.params "broker_id").getD "" = "" →
      handler w req = ⟨Body.failure "Missing broker_id parameter", 400, jsonHeaders⟩ ∧
      handlerCalls w req =
        [Call.create_client (envUrl w) (envKey w), Call.get_user (tokenOf req)]) ∧
    ((req.params "broker_id").getD "" ≠ "" → (req.params "instruments").getD "" = "" →
      handler w req = ⟨Body.failure "Missing instruments parameter", 400, jsonHeaders⟩ ∧
      handlerCalls w req =
        [Call.create_client (envUrl w) (envKey w), Call.get_user (tokenOf req)]) := by
  have hu2 : w.get_user c (stripBearer (authHeaderOf req)) = Except.ok (some u) := hu
  constructor
  · intro hb
    constructor <;>
      simp [handler, handlerCalls, handlerT, runBody, hm, hc, ha, hu2, hb, tokenOf]
  · intro hb hi
    constructor <;>
      simp [handler, handlerCalls, handlerT, runBody, hm, hc, ha, hu2, hb, hi, tokenOf]

/-- Witness for C7: both validation failures at concrete requests. -/
theorem c7_witness :
    (handler okWorld reqNoBroker =
       ⟨Body.failure "Missing broker_id parameter", 400, jsonHeaders⟩ ∧
     handlerCalls okWorld reqNoBroker =
       [Call.create_client (some "cfg") (some "cfg"), Call.get_user "tok"]) ∧
    (handler okWorld reqNoInstruments =
       ⟨Body.failure "Missing instruments parameter", 400, jsonHeaders⟩ ∧
     handlerCalls okWorld reqNoInstruments =
       [Call.create_client (some "cfg") (some "cfg"), Call.get_user "tok"]) := by
  have h1 := (c7_param_checks okWorld reqNoBroker ⟨0⟩ ⟨"user-1"⟩
    (by decide) rfl (by decide) rfl).1 rfl
  have h2 := (c7_param_checks okWorld reqNoInstruments ⟨0⟩ ⟨"user-1"⟩
    (by decide) rfl (by decide) rfl).2 (by decide) rfl
  exact ⟨h1, h2⟩

/-- Claim C3 as amended: the token passed to the auth service is the
header value with EVERY occurrence of the literal Bearer-plus-space
deleted, Python replace semantics; when the header is that literal
followed by a remainder free of further occurrences, this coincides
with stripping the prefix. -/
theorem c3_amended_thm (w : World) (req : Request) (c : Client)
    (hm : req.method ≠ "OPTIONS")
    (hc : w.create_client (envUrl w) (envKey w) = Except.ok c)
    (ha : authHeaderOf req ≠ "") :
    userTokens (handlerCalls w req) = [stripBearer (authHeaderOf req)] ∧
    (∀ t : String, containsBearer t = false → stripBearer ("Bearer " ++ t) = t) := by
  constructor
  · have hb : userTokens (runBody w req).2 = [stripBearer (authHeaderOf req)] :=
      userTokens_runBody w req c hc ha
    rcases hr : runBody w req with ⟨r, calls⟩
    rw [hr] at hb
    cases r <;> simp [handlerCalls, handlerT, hm, hr] <;> exact hb
  · exact fun t ht => stripBearer_of_bearer_free t ht

/-- Witness for C3 as amended: the well-formed header Bearer tok leads
to the token tok, and prefix stripping holds for a clean remainder. -/
theorem c3_witness :
    userTokens (handlerCalls okWorld reqGood) = ["tok"] ∧
    stripBearer ("Bearer " ++ "abc") = "abc" := by
  have h := c3_amended_thm okWorld reqGood ⟨0⟩ (by decide) rfl (by decide)
  exact ⟨h.1, h.2 "abc" (by decide)⟩

/-- Counterexample to C3 as stated: the header xBearer y does not start
with the Bearer literal, yet the token passed to the auth service is
xy, not the unchanged header value. -/
theorem c3_counterexample :
    startsWithBearer "xBearer y" = false ∧
    authHeaderOf reqOddAuth = "xBearer y" ∧
    userTokens (handlerCalls okWorld reqOddAuth) = ["xy"] ∧
    "xy" ≠ "xBearer y" :=
  ⟨rfl, rfl, rfl, by decide⟩

/-- Claim C10: the handler is deterministic: two invocations with
pointwise equal requests, environments and collaborator results produce
equal responses (status, headers and body) and equal call traces. -/
theorem c10_determinism (w w2 : World) (r r2 : Request)
    (henv : ∀ n, w.environ n = w2.environ n)
    (hcc : ∀ u k, w.create_client u k = w2.create_client u k)
    (hgu : ∀ c t, w.get_user c t = w2.get_user c t)
    (hbl : ∀ c b u, w.broker_lookup c b u = w2.broker_lookup c b u)
    (hltp : ∀ a t xs, w.ltp a t xs = w2.ltp a t xs)
    (hmethod : r.method = r2.method)
    (hheaders : ∀ n, r.headers n = r2.headers n)
    (hparams : ∀ n, r.params n = r2.params n) :
    handler w r = handler w2 r2 ∧ handlerCalls w r = handlerCalls w2 r2 := by
  have hw : w = w2 := by
    cases w; cases w2
    simp only [World.mk.injEq]
    exact ⟨funext henv,
      funext fun u => funext fun k => hcc u k,
      funext fun c => funext fun t => hgu c t,
      funext fun c => funext fun b => funext fun u => hbl c b u,
      funext fun a => funext fun t => funext fun xs => hltp a t xs⟩
  have hr : r = r2 := by
    cases r; cases r2
    simp only [Request.mk.injEq]
    exact ⟨hmethod, funext hheaders, funext hparams⟩
  rw [hw, hr]
  exact ⟨rfl, rfl⟩

/-- Witness for C10 at concrete equal inputs. -/
theorem c10_witness :
    handler okWorld reqGood = handler okWorld reqGood ∧
    handlerCalls okWorld reqGood = handlerCalls okWorld reqGood :=
  c10_determinism okWorld okWorld reqGood reqGood
    (fun _ => rfl) (fun _ _ => rfl) (fun _ _ => rfl) (fun _ _ _ => rfl) (fun _ _ _ => rfl)
    rfl (fun _ => rfl) (fun _ => rfl)
